import Mathlib

/-!
Verification of the similarity-based element resolution engine of
`playwright-ai-self-healing` against its specification.

The engine is embedded shallowly:

* JavaScript strings are modelled as `List Char` (`Str`); JavaScript numbers
  (scores, weights, thresholds) as `ℚ`; integral options (timeouts, element
  budgets) as `ℤ`.
* The mutable per-instance state (configuration, similarity cache) is passed
  explicitly; the host "Automation Page" is modelled as a record of the
  outcomes of the host interactions a resolution call performs (whether the
  original selector still resolves, and the results of the two read-only
  `evaluate` extractions).
* Fallible host calls are modelled with `Except`; a thrown JavaScript error
  is an `Except.error` value.

Every definition below is a direct translation of the corresponding function
of the library source (the compiled `index.js`); the one exception is
`synthesizeSpec`, which transcribes the specification wording of selector
synthesis so that it can be compared with the source-derived
`generateOptimalSelector`.
-/

/-- JavaScript strings are modelled as lists of characters. -/
abbrev Str := List Char

/-- Literal helper: a Lean string literal viewed as a modelled JS string. -/
def str (s : String) : Str := s.toList

/-- JS `String.prototype.startsWith`: does `s` start with `pre`. -/
def strStartsWith : Str → Str → Bool
  | _, [] => true
  | [], _ :: _ => false
  | c :: cs, p :: ps => c = p && strStartsWith cs ps

/-- JS `String.prototype.includes`: does `s` contain `sub` as a contiguous
substring. -/
def strContains : Str → Str → Bool
  | [], sub => sub.isEmpty
  | c :: cs, sub => strStartsWith (c :: cs) sub || strContains cs sub

/-- JS `String.prototype.toLowerCase` (ASCII case folding). -/
def toLowerStr (s : Str) : Str := s.map Char.toLower

/-- JS `String.prototype.trim`: strip whitespace from both ends. -/
def jsTrim (s : Str) : Str :=
  ((s.dropWhile Char.isWhitespace).reverse.dropWhile Char.isWhitespace).reverse

/-- JS `String.prototype.split` with a single-character separator: keeps
empty segments, so `"".split(sep) = [""]` and `" ".split(" ") = ["", ""]`. -/
def splitChar (sep : Char) : Str → List Str
  | [] => [[]]
  | c :: cs =>
    if c = sep then [] :: splitChar sep cs
    else
      match splitChar sep cs with
      | s :: ss => (c :: s) :: ss
      | [] => [[c]]

/-- JS `Math.min` on two numbers. -/
def jsMin (a b : ℚ) : ℚ := if a ≤ b then a else b

/-- JS `Math.max` on two numbers. -/
def jsMax (a b : ℚ) : ℚ := if a ≤ b then b else a

/-- Inner step of the Levenshtein dynamic programme of
`calculateLevenshteinSimilarity`: given the distance function `f` for the
tail of the first string, the current character `x` of the first string and
the tail length `len1`, compute the distance of `x :: tail` against the
second string.  The three `min` arms are exactly the three matrix arms of
the source (`matrix[i-1][j] + 1`, `matrix[i][j-1] + 1`,
`matrix[i-1][j-1] + cost`). -/
def levWith (f : Str → Nat) (x : Char) (len1 : Nat) : Str → Nat
  | [] => len1 + 1
  | y :: ys =>
    min (f (y :: ys) + 1) (min (levWith f x len1 ys + 1) (f ys + (if x = y then 0 else 1)))

/-- The Levenshtein edit distance computed by the matrix loop of
`calculateLevenshteinSimilarity` (`matrix[len1][len2]`), written as the
structural recurrence that the matrix tabulates. -/
def levDistance : Str → Str → Nat
  | [], ys => ys.length
  | x :: xs, ys => levWith (levDistance xs) x xs.length ys

/-- `calculateLevenshteinSimilarity(str1, str2)`: normalized edit-distance
similarity with the asymmetric `+0.8` prefix / `+0.6` substring bonus,
capped at 1. -/
def calculateLevenshteinSimilarity (str1 str2 : Str) : ℚ :=
  let len1 := str1.length
  let len2 := str2.length
  if len1 = 0 then (if len2 = 0 then 1 else 0)
  else if len2 = 0 then 0
  else
    let maxLen := max len1 len2
    let distance := levDistance str1 str2
    let similarity : ℚ := 1 - (distance : ℚ) / (maxLen : ℚ)
    let boosted :=
      if strStartsWith str2 str1 then similarity + 0.8
      else if strContains str2 str1 then similarity + 0.6
      else similarity
    jsMin boosted 1

/-- The distance of a string against itself is zero. -/
theorem levDistance_self (l : Str) : levDistance l l = 0 := by
  induction l with
  | nil => rfl
  | cons x xs ih =>
    simp [levDistance, levWith, ih]

/-- Every string is a prefix of itself. -/
theorem strStartsWith_self (l : Str) : strStartsWith l l = true := by
  induction l with
  | nil => rfl
  | cons c cs ih => simp [strStartsWith, ih]

/-- Claim C6: the lexical similarity function satisfies `lex(s, s) = 1` for
every non-empty string `s`, `lex("", "") = 1`, and `lex(s, "") = 0` for
every non-empty `s`, in particular `lex("x", "") = 0`. -/
theorem claim_C6_lex_edge_cases :
    (∀ s : Str, s ≠ [] → calculateLevenshteinSimilarity s s = 1) ∧
    calculateLevenshteinSimilarity [] [] = 1 ∧
    (∀ s : Str, s ≠ [] → calculateLevenshteinSimilarity s [] = 0) ∧
    calculateLevenshteinSimilarity (str "x") [] = 0 := by
  have hself : ∀ s : Str, s ≠ [] → calculateLevenshteinSimilarity s s = 1 := by
    intro s hs
    have hlen : s.length ≠ 0 := by simpa using hs
    simp only [calculateLevenshteinSimilarity, if_neg hlen, levDistance_self,
      strStartsWith_self, if_pos, Nat.cast_zero, zero_div, sub_zero, jsMin]
    norm_num
  refine ⟨hself, by norm_num [calculateLevenshteinSimilarity], ?_, ?_⟩
  · intro s hs
    have hlen : s.length ≠ 0 := by simpa using hs
    simp [calculateLevenshteinSimilarity, hlen]
  · exact (by simp [calculateLevenshteinSimilarity, str])

/-- Witness for C6 at the concrete nonempty strings `"ab"` and `"x"`. -/
theorem claim_C6_lex_edge_cases_witness :
    (str "ab" ≠ [] ∧ calculateLevenshteinSimilarity (str "ab") (str "ab") = 1) ∧
    (str "x" ≠ [] ∧ calculateLevenshteinSimilarity (str "x") [] = 0) :=
  ⟨⟨by decide, claim_C6_lex_edge_cases.1 (str "ab") (by decide)⟩,
   ⟨by decide, claim_C6_lex_edge_cases.2.2.1 (str "x") (by decide)⟩⟩

set_option maxRecDepth 100000 in
unseal Rat.add Rat.mul Rat.sub Rat.inv Rat.ofScientific Nat.gcd in
/-- Claim C7: the lexical similarity function is not commutative; on the pair
`("pass", "pass-input")` the two orders give different scores, because the
prefix/substring bonus only fires when the second argument extends the
first. -/
theorem claim_C7_lex_asymmetric :
    calculateLevenshteinSimilarity (str "pass") (str "pass-input") ≠
      calculateLevenshteinSimilarity (str "pass-input") (str "pass") ∧
    calculateLevenshteinSimilarity (str "pass") (str "pass-input") = 1 ∧
    calculateLevenshteinSimilarity (str "pass-input") (str "pass") = 2/5 := by
  refine ⟨?_, by decide, by decide⟩
  decide

/-- The serializable projection of one DOM element produced by the bulk
extraction inside `getAllPageElements` (interface `SerializedElement`). -/
structure SerializedElement where
  tagName : Str
  id : Str
  className : Str
  textContent : Str
  placeholder : Str
  name : Str
  type : Str
  role : Str
  ariaLabel : Str
  title : Str
  value : Str
  href : Str
  src : Str
  alt : Str
deriving DecidableEq

/-- A snapshot with every attribute empty, used to build concrete fixtures. -/
def emptyElement : SerializedElement :=
  ⟨[], [], [], [], [], [], [], [], [], [], [], [], [], []⟩

/-- `getElementIdentifier(element)`: the canonical textual fingerprint; an
ordered list of present attributes rendered `key:value`, joined with commas
and wrapped as `tag[...]`, or the bare tag when no attribute is present.
The debug counter of the source only gates logging and never affects the
returned identifier, so it is omitted. -/
def getElementIdentifier (el : SerializedElement) : Str :=
  let id := el.id
  let className := el.className
  let tagLower := toLowerStr el.tagName
  let tagName := if tagLower = [] then str "div" else tagLower
  let textContent := (jsTrim el.textContent).take 50
  let parts : List Str :=
    (if id ≠ [] then [str "id:" ++ id] else []) ++
    (if className ≠ [] then [str "class:" ++ (splitChar ' ' className).headD []] else []) ++
    (if el.name ≠ [] then [str "name:" ++ el.name] else []) ++
    (if el.type ≠ [] then [str "type:" ++ el.type] else []) ++
    (if el.placeholder ≠ [] then [str "placeholder:" ++ el.placeholder] else []) ++
    (if el.role ≠ [] then [str "role:" ++ el.role] else []) ++
    (if el.ariaLabel ≠ [] then [str "aria:" ++ el.ariaLabel] else []) ++
    (if textContent ≠ [] then [str "text:" ++ textContent] else [])
  if parts ≠ [] then tagName ++ str "[" ++ List.intercalate (str ",") parts ++ str "]"
  else tagName

/-- A separator of the token split `/[-_\s]+/` used by the semantic scorer. -/
def isWordSep (c : Char) : Bool := c = '-' || c = '_' || c.isWhitespace

/-- Fuel-driven worker for `splitWords`; the fuel starts at the string length
and dominates the number of consumed characters, so it never runs out. -/
def splitWordsAux : Nat → Str → Str → List Str
  | 0, _, acc => [acc.reverse]
  | _ + 1, [], acc => [acc.reverse]
  | n + 1, c :: cs, acc =>
    if isWordSep c then acc.reverse :: splitWordsAux n (cs.dropWhile isWordSep) []
    else splitWordsAux n cs (c :: acc)

/-- JS `split(/[-_\s]+/)`: split on runs of `-`, `_` and whitespace, keeping
the empty leading/trailing segments JavaScript produces. -/
def splitWords (s : Str) : List Str := splitWordsAux s.length s []

/-- `calculateSemanticSimilarity(originalSelector, element)`: the fraction of
lower-cased selector tokens that share a substring relation with some token
of the candidate identifier. -/
def calculateSemanticSimilarity (originalSelector : Str) (el : SerializedElement) : ℚ :=
  let elementText := getElementIdentifier el
  let originalWords := splitWords (toLowerStr originalSelector)
  let elementWords := splitWords (toLowerStr elementText)
  let matchCount :=
    (originalWords.filter fun word =>
      elementWords.any fun ew => strContains ew word || strContains word ew).length
  if 0 < originalWords.length then (matchCount : ℚ) / (originalWords.length : ℚ) else 0

/-- `calculateStructuralSimilarity(originalSelector, element)`: additive tag,
id and class containment bonuses, capped at 1.  The source wraps the body in
`try`/`catch`, but the body is total, so the `catch` arm is dead. -/
def calculateStructuralSimilarity (originalSelector : Str) (el : SerializedElement) : ℚ :=
  let tagName := toLowerStr el.tagName
  let className := el.className
  let elementId := el.id
  let s1 : ℚ := if tagName ≠ [] ∧ strContains originalSelector tagName then 0.3 else 0
  let s2 : ℚ := if strContains originalSelector elementId ∧ elementId ≠ [] then 0.4 else 0
  let s3 : ℚ := if className ≠ [] ∧ strContains originalSelector className then 0.3 else 0
  jsMin (s1 + s2 + s3) 1

/-- Is a character one of the two JS quote characters of the attribute
regexes (double quote or single quote). -/
def isQuote (c : Char) : Bool := c = '"' || c.toNat = 39

/-- Attempt to match a quote, a non-empty quote-free body and a closing
quote at the start of `s`, returning the captured body. -/
def matchQuotedAt (s : Str) : Option Str :=
  match s with
  | q :: rest =>
    if isQuote q then
      let body := rest.takeWhile fun c => !isQuote c
      match rest.drop body.length with
      | q2 :: _ => if body ≠ [] ∧ isQuote q2 then some body else none
      | [] => none
    else none
  | [] => none

/-- Leftmost match of the JS attribute regex: the literal `pat` (such as
`name=`) followed by a quoted value, returning the captured attribute value,
as used by the attribute-bonus parsing of
`calculateComprehensiveSimilarity`. -/
def jsMatchAttr (pat : Str) : Str → Option Str
  | [] => none
  | c :: cs =>
    if strStartsWith (c :: cs) pat then
      match matchQuotedAt ((c :: cs).drop pat.length) with
      | some body => some body
      | none => jsMatchAttr pat cs
    else jsMatchAttr pat cs

/-- The engine configuration (`SelfHealingConfig`). -/
structure SelfHealingConfig where
  minSimilarityThreshold : ℚ
  levenshteinWeight : ℚ
  semanticWeight : ℚ
  structuralWeight : ℚ
  domCacheTTL : ℤ
  maxElementsToAnalyze : ℤ
  findTimeout : ℤ
  debug : Bool
deriving DecidableEq

/-- `DEFAULT_CONFIG`: the default configuration optimized for performance. -/
def DEFAULT_CONFIG : SelfHealingConfig where
  minSimilarityThreshold := 0.1
  levenshteinWeight := 0.7
  semanticWeight := 0.2
  structuralWeight := 0.1
  domCacheTTL := 30000
  maxElementsToAnalyze := 50
  findTimeout := 5000
  debug := false

/-- The unclamped composite similarity computed by
`calculateComprehensiveSimilarity` before it is stored in the cache:
weighted lexical/semantic/structural scores plus the type bonus and the
attribute bonus. -/
def comprehensiveRaw (cfg : SelfHealingConfig) (originalSelector : Str)
    (el : SerializedElement) : ℚ :=
  let elementText := getElementIdentifier el
  let levenshteinScore := calculateLevenshteinSimilarity originalSelector elementText
  let semanticScore := calculateSemanticSimilarity originalSelector el
  let structuralScore := calculateStructuralSimilarity originalSelector el
  let typeBonus : ℚ :=
    if strContains originalSelector (str "input") ∧
        (el.tagName = str "input" ∨ el.tagName = str "textarea") then 0.4
    else if strContains originalSelector (str "button") ∧
        (el.tagName = str "button" ∨ el.tagName = str "input") then 0.4
    else if strContains originalSelector (str "select") ∧ el.tagName = str "select" then 0.4
    else if strContains originalSelector (str "textarea") ∧ el.tagName = str "textarea" then 0.4
    else if (strContains originalSelector (str "input") ∨
        strContains originalSelector (str "button")) ∧
        (el.tagName = str "html" ∨ el.tagName = str "body" ∨ el.tagName = str "div" ∨
         el.tagName = str "span" ∨ el.tagName = str "a") then -0.3
    else 0
  let nameBonus : ℚ :=
    if strContains originalSelector (str "name=") ∧ el.name ≠ [] then
      match jsMatchAttr (str "name=") originalSelector with
      | some selectorName =>
        if selectorName = el.name then 0.5
        else
          let nameSimilarity := calculateLevenshteinSimilarity selectorName el.name
          if 0.5 < nameSimilarity then nameSimilarity * 0.3 else 0
      | none => 0
    else 0
  let searchFieldBonus : ℚ :=
    if strContains originalSelector (str "input") ∧
        (el.name = str "q" ∨ el.name = str "search" ∨ el.name = str "query") then 0.3
    else 0
  let googleButtonBonus : ℚ :=
    if strContains originalSelector (str "button") ∧
        (el.name = str "btnK" ∨ el.name = str "btnG" ∨ el.type = str "submit") then 0.4
    else 0
  let gmailBonus : ℚ :=
    if strContains originalSelector (str "Gmail") ∧
        strContains (toLowerStr el.textContent) (str "gmail") then 0.4
    else 0
  let imagesBonus : ℚ :=
    if strContains originalSelector (str "Images") ∧
        strContains (toLowerStr el.textContent) (str "images") then 0.4
    else 0
  let placeholderBonus : ℚ :=
    if strContains originalSelector (str "placeholder=") ∧ el.placeholder ≠ [] then
      match jsMatchAttr (str "placeholder=") originalSelector with
      | some p => if p = el.placeholder then 0.3 else 0
      | none => 0
    else 0
  let typeAttrBonus : ℚ :=
    if strContains originalSelector (str "type=") ∧ el.type ≠ [] then
      match jsMatchAttr (str "type=") originalSelector with
      | some t => if t = el.type then 0.3 else 0
      | none => 0
    else 0
  let attributeBonus := nameBonus + searchFieldBonus + googleButtonBonus + gmailBonus +
    imagesBonus + placeholderBonus + typeAttrBonus
  levenshteinScore * cfg.levenshteinWeight + semanticScore * cfg.semanticWeight +
    structuralScore * cfg.structuralWeight + typeBonus + attributeBonus

/-- The similarity cache (`similarityCache : Map<string, number>`), modelled
as an association list whose most recent insertion shadows older ones. -/
abbrev SimilarityCache := List (Str × ℚ)

/-- The cache key `` `${originalSelector}-${elementText}` `` of
`calculateComprehensiveSimilarity`. -/
def similarityCacheKey (originalSelector elementText : Str) : Str :=
  originalSelector ++ str "-" ++ elementText

/-- `calculateComprehensiveSimilarity(originalSelector, element)` together
with its effect on the similarity cache.  A cache hit returns the stored
number unchanged; a cache miss computes the composite score, stores the raw
(unclamped) value in the cache, and returns the value clamped into
`[0, 1]`. -/
def calculateComprehensiveSimilarity (cfg : SelfHealingConfig) (cache : SimilarityCache)
    (originalSelector : Str) (el : SerializedElement) : ℚ × SimilarityCache :=
  let elementText := getElementIdentifier el
  let cacheKey := similarityCacheKey originalSelector elementText
  match cache.lookup cacheKey with
  | some v => (v, cache)
  | none =>
    let totalScore := comprehensiveRaw cfg originalSelector el
    (jsMax 0 (jsMin totalScore 1), (cacheKey, totalScore) :: cache)

/-- The C1 failing input: a bare visible `div` container scored against the
selector `"button"`.  The container penalty makes the composite score
`-0.3`. -/
def divContainer : SerializedElement := { emptyElement with tagName := str "div" }

set_option maxRecDepth 100000 in
unseal Rat.add Rat.mul Rat.sub Rat.inv Rat.ofScientific Nat.gcd in
/-- Claim C1 is violated by the code: for the selector `"button"` against a
bare `div` snapshot the composite raw score is `-0.3`; the first call clamps
its return value to `0` but records the raw `-0.3` in the similarity cache,
and the second call (a cache hit) returns `-0.3`, outside `[0, 1]`. -/
theorem claim_C1_cache_serves_unclamped_score :
    (calculateComprehensiveSimilarity DEFAULT_CONFIG [] (str "button") divContainer).1 = 0 ∧
    (calculateComprehensiveSimilarity DEFAULT_CONFIG [] (str "button")
        divContainer).2.lookup
        (similarityCacheKey (str "button") (getElementIdentifier divContainer)) =
      some (-(3/10)) ∧
    (calculateComprehensiveSimilarity DEFAULT_CONFIG
        (calculateComprehensiveSimilarity DEFAULT_CONFIG [] (str "button") divContainer).2
        (str "button") divContainer).1 = -(3/10) := by
  refine ⟨by decide, by decide, by decide⟩

/-- A partial configuration (`Partial<SelfHealingConfig>`): each option may
be supplied or absent. -/
structure PartialConfig where
  minSimilarityThreshold : Option ℚ
  levenshteinWeight : Option ℚ
  semanticWeight : Option ℚ
  structuralWeight : Option ℚ
  domCacheTTL : Option ℤ
  maxElementsToAnalyze : Option ℤ
  findTimeout : Option ℤ
  debug : Option Bool
deriving DecidableEq

/-- A partial configuration supplying nothing (`{}`). -/
def emptyPartialConfig : PartialConfig :=
  ⟨none, none, none, none, none, none, none, none⟩

/-- The spread merge `{ ...base, ...partial }`: defaults first, overridden
per supplied key. -/
def mergeConfig (base : SelfHealingConfig) (p : PartialConfig) : SelfHealingConfig where
  minSimilarityThreshold := p.minSimilarityThreshold.getD base.minSimilarityThreshold
  levenshteinWeight := p.levenshteinWeight.getD base.levenshteinWeight
  semanticWeight := p.semanticWeight.getD base.semanticWeight
  structuralWeight := p.structuralWeight.getD base.structuralWeight
  domCacheTTL := p.domCacheTTL.getD base.domCacheTTL
  maxElementsToAnalyze := p.maxElementsToAnalyze.getD base.maxElementsToAnalyze
  findTimeout := p.findTimeout.getD base.findTimeout
  debug := p.debug.getD base.debug

/-- `validateConfig()`: throws (returns `Except.error` with the thrown
message) when a range invariant is violated, checked in source order. -/
def validateConfig (cfg : SelfHealingConfig) : Except Str Unit :=
  if cfg.minSimilarityThreshold < 0 ∨ 1 < cfg.minSimilarityThreshold then
    Except.error (str "minSimilarityThreshold must be between 0 and 1")
  else if cfg.maxElementsToAnalyze < 1 ∨ 1000 < cfg.maxElementsToAnalyze then
    Except.error (str "maxElementsToAnalyze must be between 1 and 1000")
  else if cfg.findTimeout < 100 ∨ 60000 < cfg.findTimeout then
    Except.error (str "findTimeout must be between 100ms and 60000ms")
  else Except.ok ()

/-- The mutable instance state of `PlaywrightAISelfHealing` that the claims
concern: the merged configuration and the similarity cache. -/
structure HealState where
  config : SelfHealingConfig
  similarityCache : SimilarityCache
deriving DecidableEq

/-- The constructor `new PlaywrightAISelfHealing(config)`: merge the partial
configuration over `DEFAULT_CONFIG`, then validate; on success the instance
starts with an empty similarity cache. -/
def mkSelfHealing (p : PartialConfig) : Except Str HealState :=
  let cfg := mergeConfig DEFAULT_CONFIG p
  match validateConfig cfg with
  | Except.error e => Except.error e
  | Except.ok _ => Except.ok ⟨cfg, []⟩

/-- `updateConfig(newConfig)`: the source first assigns the merged
configuration to `this.config` and only then validates, so the assignment
persists even when validation throws.  The first component is the call
outcome, the second the instance state after the call. -/
def updateConfig (st : HealState) (p : PartialConfig) : Except Str Unit × HealState :=
  let merged := mergeConfig st.config p
  let st2 : HealState := { st with config := merged }
  (validateConfig merged, st2)

/-- The range condition of claim C4: the merged configuration has
`minSimilarityThreshold` outside `[0,1]`, `maxElementsToAnalyze` outside
`[1,1000]`, or `findTimeout` outside `[100,60000]`. -/
def configOutOfRange (cfg : SelfHealingConfig) : Prop :=
  cfg.minSimilarityThreshold < 0 ∨ 1 < cfg.minSimilarityThreshold ∨
  cfg.maxElementsToAnalyze < 1 ∨ 1000 < cfg.maxElementsToAnalyze ∨
  cfg.findTimeout < 100 ∨ 60000 < cfg.findTimeout

/-- Validation fails exactly on out-of-range configurations. -/
theorem validateConfig_isOk_iff (cfg : SelfHealingConfig) :
    (validateConfig cfg).isOk = false ↔ configOutOfRange cfg := by
  unfold validateConfig configOutOfRange
  split_ifs with h1 h2 h3 <;> simp [Except.isOk] <;> tauto

/-- Claim C4: construction and `updateConfig` fail if and only if the merged
configuration violates one of the three range invariants; the three weight
options never cause a validation failure. -/
theorem claim_C4_config_validation :
    (∀ p : PartialConfig,
      (mkSelfHealing p).isOk = false ↔ configOutOfRange (mergeConfig DEFAULT_CONFIG p)) ∧
    (∀ (st : HealState) (p : PartialConfig),
      ((updateConfig st p).1.isOk = false ↔ configOutOfRange (mergeConfig st.config p))) ∧
    (∀ (cfg : SelfHealingConfig) (w1 w2 w3 : ℚ),
      validateConfig { cfg with
        levenshteinWeight := w1, semanticWeight := w2, structuralWeight := w3 } =
      validateConfig cfg) := by
  refine ⟨?_, ?_, ?_⟩
  · intro p
    rw [← validateConfig_isOk_iff]
    unfold mkSelfHealing
    cases h : validateConfig (mergeConfig DEFAULT_CONFIG p) <;> simp [h, Except.isOk] <;> rfl
  · intro st p
    rw [← validateConfig_isOk_iff]
    unfold updateConfig
    rfl
  · intro cfg w1 w2 w3
    unfold validateConfig
    rfl

/-- A fresh instance with the default configuration and empty caches. -/
def defaultState : HealState := ⟨DEFAULT_CONFIG, []⟩

/-- A partial update carrying only an invalid `minSimilarityThreshold`. -/
def badThresholdUpdate : PartialConfig :=
  { emptyPartialConfig with minSimilarityThreshold := some 2 }

unseal Rat.add Rat.mul Rat.sub Rat.inv Rat.ofScientific Nat.gcd in
/-- Counterexample to claim C10: starting from the valid default
configuration, `updateConfig({minSimilarityThreshold: 2})` throws, yet the
stored configuration has changed — it now carries the invalid threshold. -/
theorem claim_C10_counterexample :
    (updateConfig defaultState badThresholdUpdate).1.isOk = false ∧
    (updateConfig defaultState badThresholdUpdate).2.config ≠ defaultState.config ∧
    (updateConfig defaultState badThresholdUpdate).2.config.minSimilarityThreshold = 2 := by
  refine ⟨by decide, by decide, by decide⟩

/-- Claim C10 amended: `updateConfig` is not atomic on error.  The merged
configuration is always assigned to the instance before validation runs, so
after a failing update the instance keeps the merged (invalid)
configuration, and the call fails exactly when that merged configuration is
out of range. -/
theorem claim_C10_update_persists_on_failure :
    ∀ (st : HealState) (p : PartialConfig),
      (updateConfig st p).2.config = mergeConfig st.config p ∧
      (updateConfig st p).2.similarityCache = st.similarityCache ∧
      (updateConfig st p).1 = validateConfig (mergeConfig st.config p) := by
  intro st p
  exact ⟨rfl, rfl, rfl⟩

/-- One entry of the per-page DOM snapshot cache (`domCache`). -/
structure DomCacheEntry where
  elements : List SerializedElement
  timestamp : ℤ
deriving DecidableEq

/-- `getAllPageElements(page)`: return the cached snapshot list when the
entry is younger than `domCacheTTL`; otherwise run the bulk extraction.
`extractResult` is the outcome of the read-only `page.evaluate` bulk
extraction (the filtering and projection happen inside the browser, so the
model receives the projected list or the thrown error).  The source has no
`try`/`catch` around this `evaluate`, so an extraction error propagates to
the caller; on success the fresh list is stored with the current
timestamp.  The second component is the cache entry for this page after the
call. -/
def getAllPageElements (cfg : SelfHealingConfig) (now : ℤ) (cached : Option DomCacheEntry)
    (extractResult : Except Str (List SerializedElement)) :
    Except Str (List SerializedElement × DomCacheEntry) :=
  match cached with
  | some entry =>
    if now - entry.timestamp < cfg.domCacheTTL then Except.ok (entry.elements, entry)
    else
      match extractResult with
      | Except.error e => Except.error e
      | Except.ok elements => Except.ok (elements, ⟨elements, now⟩)
  | none =>
    match extractResult with
    | Except.error e => Except.error e
    | Except.ok elements => Except.ok (elements, ⟨elements, now⟩)

/-- `getContextualElements(page, originalSelector)`: the contextual
extraction used by the Advanced strategy.  `contextResult` is the outcome of
its `page.evaluate` call over the document elements; unlike the bulk
extraction this call sits in a `try`/`catch` that degrades a failure to an
empty list.  The browser-side filter keeps elements whose first non-empty
text/placeholder/id/class field contains the first three characters of the
lower-cased selector, and takes at most five. -/
def getContextualElements (contextResult : Except Str (List SerializedElement))
    (originalSelector : Str) : List SerializedElement :=
  match contextResult with
  | Except.error _ => []
  | Except.ok elements =>
    (elements.filter fun el =>
      let text :=
        if el.textContent ≠ [] then el.textContent
        else if el.placeholder ≠ [] then el.placeholder
        else if el.id ≠ [] then el.id
        else el.className
      text ≠ [] ∧
        strContains (toLowerStr text) ((toLowerStr originalSelector).take 3)).take 5

/-- Errors a resolution call can raise: the synchronous selector-validation
error (a thrown Error whose message is the invalid-selector text) or an
error propagated from
a host interaction. -/
inductive JsError where
  | invalidSelector : JsError
  | host : Str → JsError
deriving DecidableEq

/-- The host page as seen by one resolution call: whether the original
selector still resolves within the fast-path wait, the outcome of the bulk
snapshot extraction, and the outcome of the contextual extraction used by
the Advanced strategy. -/
structure PageModel where
  originalResolves : Bool
  allElements : Except Str (List SerializedElement)
  contextResult : Except Str (List SerializedElement)

/-- `isValidSelector(selector)`: non-empty, at most 1000 characters, and
free of the five dangerous patterns, matched case-insensitively. -/
def isValidSelector (selector : Str) : Bool :=
  if selector = [] ∨ 1000 < selector.length then false
  else
    !([str "javascript:", str "data:", str "vbscript:", str "<script", str "eval("].any
      fun pat => strContains (toLowerStr selector) pat)

/-- JS `Array.prototype.slice(0, end)` with a possibly negative `end`. -/
def jsSlice0 (n : ℤ) (l : List SerializedElement) : List SerializedElement :=
  if 0 ≤ n then l.take n.toNat else l.take (l.length - n.natAbs)

/-- `generateOptimalSelector(page, element)`: synthesize a fresh selector
from a winning snapshot, first applicable rule wins.  The body is total, so
the surrounding `try`/`catch` (whose arm returns the generic tag) is dead;
the final `element.tagName || "div"` fallback is the reachable generic
fallback. -/
def generateOptimalSelector (el : SerializedElement) : Str :=
  if el.id ≠ [] then str "#" ++ el.id
  else if el.tagName = str "a" ∧ el.textContent ≠ [] ∧
      (jsTrim el.textContent).length > 0 ∧ (jsTrim el.textContent).length < 50 then
    str "text=" ++ jsTrim el.textContent
  else if el.name ≠ [] then str "[name=\"" ++ el.name ++ str "\"]"
  else if el.type ≠ [] ∧ el.tagName = str "input" then
    str "input[type=\"" ++ el.type ++ str "\"]"
  else if el.placeholder ≠ [] then str "[placeholder=\"" ++ el.placeholder ++ str "\"]"
  else if el.role ≠ [] then str "[role=\"" ++ el.role ++ str "\"]"
  else if el.className ≠ [] ∧
      ((splitChar ' ' el.className).filter fun c => c ≠ [] ∧ !strContains c (str " ")) ≠ [] then
    el.tagName ++ str "." ++
      ((splitChar ' ' el.className).filter fun c => c ≠ [] ∧ !strContains c (str " ")).headD []
  else if el.tagName ≠ [] then el.tagName
  else str "div"

/-- The scan accumulator of the Universal strategy loop: current best match,
its score, and the similarity cache threaded through the scoring calls. -/
structure UniversalScan where
  bestMatch : Option SerializedElement
  bestScore : ℚ
  cache : SimilarityCache

/-- One iteration of the Universal strategy candidate loop. -/
def universalStep (cfg : SelfHealingConfig) (originalSelector : Str)
    (acc : UniversalScan) (el : SerializedElement) : UniversalScan :=
  let scored := calculateComprehensiveSimilarity cfg acc.cache originalSelector el
  if acc.bestScore < scored.1 ∧ cfg.minSimilarityThreshold ≤ scored.1 then
    ⟨some el, scored.1, scored.2⟩
  else ⟨acc.bestMatch, acc.bestScore, scored.2⟩

/-- `findElementUniversal(page, originalSelector)`: validate the selector,
try the original selector verbatim, and otherwise scan the first
`maxElementsToAnalyze` snapshots with the comprehensive score, keeping the
best strictly-improving candidate at or above the threshold.  Returns the
call outcome (a healed selector for the returned locator, or `none` for the
null no-match result) together with the updated instance state. -/
def findElementUniversal (st : HealState) (pg : PageModel) (originalSelector : Str) :
    Except JsError (Option Str) × HealState :=
  if isValidSelector originalSelector = false then (Except.error JsError.invalidSelector, st)
  else if pg.originalResolves then (Except.ok (some originalSelector), st)
  else
    match pg.allElements with
    | Except.error e => (Except.error (JsError.host e), st)
    | Except.ok allElements =>
      let scan := (jsSlice0 st.config.maxElementsToAnalyze allElements).foldl
        (universalStep st.config originalSelector) ⟨none, 0, st.similarityCache⟩
      let st2 : HealState := { st with similarityCache := scan.cache }
      match scan.bestMatch with
      | some bestMatch => (Except.ok (some (generateOptimalSelector bestMatch)), st2)
      | none => (Except.ok none, st2)

/-- `findElementSimple(page, originalSelector)`: same fast path, then return
the first snapshot (in document order) whose lexical similarity against its
identifier meets the threshold. -/
def findElementSimple (st : HealState) (pg : PageModel) (originalSelector : Str) :
    Except JsError (Option Str) :=
  if isValidSelector originalSelector = false then Except.error JsError.invalidSelector
  else if pg.originalResolves then Except.ok (some originalSelector)
  else
    match pg.allElements with
    | Except.error e => Except.error (JsError.host e)
    | Except.ok allElements =>
      match (jsSlice0 st.config.maxElementsToAnalyze allElements).find? fun el =>
          decide (st.config.minSimilarityThreshold ≤
            calculateLevenshteinSimilarity originalSelector (getElementIdentifier el)) with
      | some el => Except.ok (some (generateOptimalSelector el))
      | none => Except.ok none

/-- A ranking candidate of the Complex strategy (`{element, score}`). -/
structure MatchCandidate where
  element : SerializedElement
  score : ℚ

/-- Insert a candidate into a descending-by-score list, after any candidate
of equal score: the insertion sort below is the stable descending sort
`candidates.sort((a, b) => b.score - a.score)` of the source. -/
def insertDesc (c : MatchCandidate) : List MatchCandidate → List MatchCandidate
  | [] => [c]
  | d :: ds => if d.score < c.score then c :: d :: ds else d :: insertDesc c ds

/-- Stable sort by strictly greater score (descending), as performed by the
Complex strategy on its candidate list. -/
def sortByScoreDesc (l : List MatchCandidate) : List MatchCandidate :=
  l.foldl (fun acc c => insertDesc c acc) []

/-- `findElementComplex(page, originalSelector)`: same fast path, then
collect every candidate whose `semantic*0.6 + structural*0.4` score meets
the threshold, stable-sort descending and take the top candidate. -/
def findElementComplex (st : HealState) (pg : PageModel) (originalSelector : Str) :
    Except JsError (Option Str) :=
  if isValidSelector originalSelector = false then Except.error JsError.invalidSelector
  else if pg.originalResolves then Except.ok (some originalSelector)
  else
    match pg.allElements with
    | Except.error e => Except.error (JsError.host e)
    | Except.ok allElements =>
      let candidates := (jsSlice0 st.config.maxElementsToAnalyze allElements).foldl
        (fun acc el =>
          let semanticScore := calculateSemanticSimilarity originalSelector el
          let structuralScore := calculateStructuralSimilarity originalSelector el
          let totalScore := semanticScore * 0.6 + structuralScore * 0.4
          if st.config.minSimilarityThreshold ≤ totalScore then
            acc ++ [MatchCandidate.mk el totalScore]
          else acc) []
      match sortByScoreDesc candidates with
      | bestCandidate :: _ => Except.ok (some (generateOptimalSelector bestCandidate.element))
      | [] => Except.ok none

/-- `calculatePatternSimilarity(originalSelector, element, contextualElements)`:
lexical similarity plus a `0.2` bonus when the contextual set is non-empty,
capped at 1. -/
def calculatePatternSimilarity (originalSelector : Str) (el : SerializedElement)
    (contextualElements : List SerializedElement) : ℚ :=
  let elementText := getElementIdentifier el
  let basicSimilarity := calculateLevenshteinSimilarity originalSelector elementText
  let patternBonus : ℚ := if contextualElements ≠ [] then 0.2 else 0
  jsMin (basicSimilarity + patternBonus) 1

/-- `calculateContextualRelevance(element, contextualElements)`: `0.5` when
the contextual set is empty; otherwise `+0.2` per shared tag name and `+0.1`
per identical non-empty class string, capped at 1. -/
def calculateContextualRelevance (el : SerializedElement)
    (contextualElements : List SerializedElement) : ℚ :=
  if contextualElements = [] then 0.5
  else
    let relevanceScore := contextualElements.foldl
      (fun acc contextElement =>
        let acc2 := if el.tagName = contextElement.tagName then acc + 0.2 else acc
        if el.className ≠ [] ∧ contextElement.className ≠ [] ∧
            el.className = contextElement.className then acc2 + 0.1
        else acc2) 0
    jsMin relevanceScore 1

/-- The scan accumulator of the Advanced strategy loop. -/
structure AdvancedScan where
  bestMatch : Option SerializedElement
  bestScore : ℚ

/-- `findElementAdvanced(page, originalSelector)`: same fast path, then
score the first `maxElementsToAnalyze` snapshots with
`pattern*0.7 + context*0.3` against the contextual element set, keeping the
best strictly-improving candidate at or above the threshold. -/
def findElementAdvanced (st : HealState) (pg : PageModel) (originalSelector : Str) :
    Except JsError (Option Str) :=
  if isValidSelector originalSelector = false then Except.error JsError.invalidSelector
  else if pg.originalResolves then Except.ok (some originalSelector)
  else
    match pg.allElements with
    | Except.error e => Except.error (JsError.host e)
    | Except.ok allElements =>
      let contextualElements := getContextualElements pg.contextResult originalSelector
      let scan := (jsSlice0 st.config.maxElementsToAnalyze allElements).foldl
        (fun (acc : AdvancedScan) el =>
          let patternScore := calculatePatternSimilarity originalSelector el contextualElements
          let contextScore := calculateContextualRelevance el contextualElements
          let totalScore := patternScore * 0.7 + contextScore * 0.3
          if acc.bestScore < totalScore ∧ st.config.minSimilarityThreshold ≤ totalScore then
            ⟨some el, totalScore⟩
          else acc) ⟨none, 0⟩
      match scan.bestMatch with
      | some bestMatch => Except.ok (some (generateOptimalSelector bestMatch))
      | none => Except.ok none

deriving instance DecidableEq for Except

/-- A page whose bulk extraction fails with the error `"boom"`. -/
def pgBoom : PageModel := ⟨false, Except.error (str "boom"), Except.ok []⟩

/-- Counterexample to claim C2: with no fresh cache entry and a failing bulk
extraction, `getAllPageElements` does not return an empty list — it returns
the extraction error, and a Universal resolution call on such a page throws
the host error rather than completing with a no-match result. -/
theorem claim_C2_counterexample :
    (getAllPageElements DEFAULT_CONFIG 0 none (Except.error (str "boom"))).isOk = false ∧
    (findElementUniversal defaultState pgBoom (str "#login")).1 =
      Except.error (JsError.host (str "boom")) := by
  refine ⟨by decide, by decide⟩

/-- Claim C2 amended: a bulk-extraction failure in `getAllPageElements`
propagates to the caller (the source has no `try`/`catch` around that
`evaluate`); only the contextual extraction of the Advanced strategy
degrades to an empty list on failure. -/
theorem claim_C2_extraction_failure_propagates :
    (∀ (cfg : SelfHealingConfig) (now : ℤ) (e : Str),
      getAllPageElements cfg now none (Except.error e) = Except.error e) ∧
    (∀ (e : Str) (originalSelector : Str),
      getContextualElements (Except.error e) originalSelector = []) := by
  exact ⟨fun cfg now e => rfl, fun e originalSelector => rfl⟩

/-- The selector synthesis rules exactly as the specification words them:
nine rules in priority order, first applicable rule wins. -/
def synthesizeSpec (el : SerializedElement) : Str :=
  if el.id ≠ [] then str "#" ++ el.id
  else if el.tagName = str "a" ∧ jsTrim el.textContent ≠ [] ∧
      (jsTrim el.textContent).length < 50 then
    str "text=" ++ jsTrim el.textContent
  else if el.name ≠ [] then str "[name=\"" ++ el.name ++ str "\"]"
  else if el.type ≠ [] ∧ el.tagName = str "input" then
    str "input[type=\"" ++ el.type ++ str "\"]"
  else if el.placeholder ≠ [] then str "[placeholder=\"" ++ el.placeholder ++ str "\"]"
  else if el.role ≠ [] then str "[role=\"" ++ el.role ++ str "\"]"
  else if ((splitChar ' ' el.className).filter fun c => c ≠ [] ∧ !strContains c (str " ")) ≠ [] then
    el.tagName ++ str "." ++
      ((splitChar ' ' el.className).filter fun c => c ≠ [] ∧ !strContains c (str " ")).headD []
  else if el.tagName ≠ [] then el.tagName
  else str "div"

/-- Claim C9: selector synthesis implements exactly the priority order of
the specification (and, being a total function, never throws). -/
theorem claim_C9_selector_synthesis :
    ∀ el : SerializedElement, generateOptimalSelector el = synthesizeSpec el := by
  intro el
  have hkey : (el.tagName = str "a" ∧ el.textContent ≠ [] ∧
      (jsTrim el.textContent).length > 0 ∧ (jsTrim el.textContent).length < 50) ↔
      (el.tagName = str "a" ∧ jsTrim el.textContent ≠ [] ∧
        (jsTrim el.textContent).length < 50) := by
    constructor
    · rintro ⟨ha, _hraw, hpos, hlt⟩
      exact ⟨ha, List.ne_nil_of_length_pos hpos, hlt⟩
    · rintro ⟨ha, hne, hlt⟩
      refine ⟨ha, fun hraw => hne ?_, List.length_pos.mpr hne, hlt⟩
      rw [hraw]
      rfl
  have hcls : (el.className ≠ [] ∧
      ((splitChar ' ' el.className).filter fun c => c ≠ [] ∧ !strContains c (str " ")) ≠ []) ↔
      (((splitChar ' ' el.className).filter fun c => c ≠ [] ∧ !strContains c (str " ")) ≠ []) := by
    constructor
    · exact fun h => h.2
    · intro h
      refine ⟨fun hempty => h ?_, h⟩
      rw [hempty]
      rfl
  unfold generateOptimalSelector synthesizeSpec
  rw [if_congr hkey rfl rfl, if_congr hcls rfl rfl]

/-- After successful validation the Universal strategy never raises the
invalid-selector error. -/
theorem findElementUniversal_valid_no_invalid (st : HealState) (pg : PageModel)
    (originalSelector : Str) (h : isValidSelector originalSelector = true) :
    (findElementUniversal st pg originalSelector).1 ≠ Except.error JsError.invalidSelector := by
  unfold findElementUniversal
  rw [h]
  simp only [Bool.true_eq_false, if_false]
  by_cases hr : pg.originalResolves
  · simp [hr]
  · simp only [hr, if_false]
    cases hae : pg.allElements with
    | error e => simp
    | ok allElements =>
      cases hbm : ((jsSlice0 st.config.maxElementsToAnalyze allElements).foldl
          (universalStep st.config originalSelector) ⟨none, 0, st.similarityCache⟩).bestMatch <;>
        simp [hbm]

/-- After successful validation the Simple strategy never raises the
invalid-selector error. -/
theorem findElementSimple_valid_no_invalid (st : HealState) (pg : PageModel)
    (originalSelector : Str) (h : isValidSelector originalSelector = true) :
    findElementSimple st pg originalSelector ≠ Except.error JsError.invalidSelector := by
  unfold findElementSimple
  rw [h]
  simp only [Bool.true_eq_false, if_false]
  by_cases hr : pg.originalResolves
  · simp [hr]
  · simp only [hr, if_false]
    cases hae : pg.allElements with
    | error e => simp
    | ok allElements =>
      cases hf : (jsSlice0 st.config.maxElementsToAnalyze allElements).find? fun el =>
          decide (st.config.minSimilarityThreshold ≤
            calculateLevenshteinSimilarity originalSelector (getElementIdentifier el)) <;>
        simp [hf]

/-- After successful validation the Complex strategy never raises the
invalid-selector error. -/
theorem findElementComplex_valid_no_invalid (st : HealState) (pg : PageModel)
    (originalSelector : Str) (h : isValidSelector originalSelector = true) :
    findElementComplex st pg originalSelector ≠ Except.error JsError.invalidSelector := by
  unfold findElementComplex
  rw [h]
  simp only [Bool.true_eq_false, if_false]
  by_cases hr : pg.originalResolves
  · simp [hr]
  · simp only [hr, if_false]
    cases hae : pg.allElements with
    | error e => simp
    | ok allElements =>
      cases hs : sortByScoreDesc ((jsSlice0 st.config.maxElementsToAnalyze allElements).foldl
          (fun acc el =>
            let semanticScore := calculateSemanticSimilarity originalSelector el
            let structuralScore := calculateStructuralSimilarity originalSelector el
            let totalScore := semanticScore * 0.6 + structuralScore * 0.4
            if st.config.minSimilarityThreshold ≤ totalScore then
              acc ++ [MatchCandidate.mk el totalScore]
            else acc) []) <;>
        simp [hs]

/-- After successful validation the Advanced strategy never raises the
invalid-selector error. -/
theorem findElementAdvanced_valid_no_invalid (st : HealState) (pg : PageModel)
    (originalSelector : Str) (h : isValidSelector originalSelector = true) :
    findElementAdvanced st pg originalSelector ≠ Except.error JsError.invalidSelector := by
  unfold findElementAdvanced
  rw [h]
  simp only [Bool.true_eq_false, if_false]
  by_cases hr : pg.originalResolves
  · simp [hr]
  · simp only [hr, if_false]
    cases hae : pg.allElements with
    | error e => simp
    | ok allElements =>
      cases hbm : ((jsSlice0 st.config.maxElementsToAnalyze allElements).foldl
          (fun (acc : AdvancedScan) el =>
            let patternScore := calculatePatternSimilarity originalSelector el
              (getContextualElements pg.contextResult originalSelector)
            let contextScore := calculateContextualRelevance el
              (getContextualElements pg.contextResult originalSelector)
            let totalScore := patternScore * 0.7 + contextScore * 0.3
            if acc.bestScore < totalScore ∧ st.config.minSimilarityThreshold ≤ totalScore then
              ⟨some el, totalScore⟩
            else acc) ⟨none, 0⟩).bestMatch <;>
        simp [hbm]

/-- Claim C3: each of the four public operations raises the invalid-selector
error exactly when the selector fails validation — empty, longer than 1000
characters, or containing one of the five dangerous patterns
case-insensitively — independently of any page state (so before any DOM
interaction); in particular `"javascript:alert(1)"` and
`"<script>x</script>"` are rejected while `[data-testid="login"]` is
accepted. -/
theorem claim_C3_selector_validation :
    (∀ (st : HealState) (pg : PageModel) (originalSelector : Str),
      ((findElementUniversal st pg originalSelector).1 = Except.error JsError.invalidSelector ↔
        isValidSelector originalSelector = false) ∧
      (findElementSimple st pg originalSelector = Except.error JsError.invalidSelector ↔
        isValidSelector originalSelector = false) ∧
      (findElementComplex st pg originalSelector = Except.error JsError.invalidSelector ↔
        isValidSelector originalSelector = false) ∧
      (findElementAdvanced st pg originalSelector = Except.error JsError.invalidSelector ↔
        isValidSelector originalSelector = false)) ∧
    isValidSelector (str "javascript:alert(1)") = false ∧
    isValidSelector (str "<script>x</script>") = false ∧
    isValidSelector (str "[data-testid=\"login\"]") = true := by
  refine ⟨?_, by decide, by decide, by decide⟩
  intro st pg originalSelector
  refine ⟨⟨?_, ?_⟩, ⟨?_, ?_⟩, ⟨?_, ?_⟩, ⟨?_, ?_⟩⟩
  · intro h
    by_contra hv
    have hv2 : isValidSelector originalSelector = true := by
      cases hval : isValidSelector originalSelector
      · exact absurd hval hv
      · rfl
    exact findElementUniversal_valid_no_invalid st pg originalSelector hv2 h
  · intro h
    unfold findElementUniversal
    rw [h]
    rfl
  · intro h
    by_contra hv
    have hv2 : isValidSelector originalSelector = true := by
      cases hval : isValidSelector originalSelector
      · exact absurd hval hv
      · rfl
    exact findElementSimple_valid_no_invalid st pg originalSelector hv2 h
  · intro h
    unfold findElementSimple
    rw [h]
    rfl
  · intro h
    by_contra hv
    have hv2 : isValidSelector originalSelector = true := by
      cases hval : isValidSelector originalSelector
      · exact absurd hval hv
      · rfl
    exact findElementComplex_valid_no_invalid st pg originalSelector hv2 h
  · intro h
    unfold findElementComplex
    rw [h]
    rfl
  · intro h
    by_contra hv
    have hv2 : isValidSelector originalSelector = true := by
      cases hval : isValidSelector originalSelector
      · exact absurd hval hv
      · rfl
    exact findElementAdvanced_valid_no_invalid st pg originalSelector hv2 h
  · intro h
    unfold findElementAdvanced
    rw [h]
    rfl

/-- Truncating to the analysis window is idempotent for the non-negative
budgets that validation admits. -/
theorem jsSlice0_idem (n : ℤ) (h : 0 ≤ n) (l : List SerializedElement) :
    jsSlice0 n (jsSlice0 n l) = jsSlice0 n l := by
  simp [jsSlice0, if_pos h, List.take_take]

/-- Claim C8: with a non-negative analysis budget, every strategy gives the
same outcome on the full snapshot list as on the list truncated to the first
`maxElementsToAnalyze` snapshots, so snapshots beyond the window never
influence scoring or the result (the contextual extraction of the Advanced
strategy is a separate host call, held fixed here). -/
theorem claim_C8_scan_window :
    ∀ (st : HealState) (originalSelector : Str) (orig : Bool)
      (ctx : Except Str (List SerializedElement)) (elems : List SerializedElement),
      0 ≤ st.config.maxElementsToAnalyze →
      (findElementUniversal st ⟨orig, Except.ok elems, ctx⟩ originalSelector =
        findElementUniversal st
          ⟨orig, Except.ok (jsSlice0 st.config.maxElementsToAnalyze elems), ctx⟩
          originalSelector) ∧
      (findElementSimple st ⟨orig, Except.ok elems, ctx⟩ originalSelector =
        findElementSimple st
          ⟨orig, Except.ok (jsSlice0 st.config.maxElementsToAnalyze elems), ctx⟩
          originalSelector) ∧
      (findElementComplex st ⟨orig, Except.ok elems, ctx⟩ originalSelector =
        findElementComplex st
          ⟨orig, Except.ok (jsSlice0 st.config.maxElementsToAnalyze elems), ctx⟩
          originalSelector) ∧
      (findElementAdvanced st ⟨orig, Except.ok elems, ctx⟩ originalSelector =
        findElementAdvanced st
          ⟨orig, Except.ok (jsSlice0 st.config.maxElementsToAnalyze elems), ctx⟩
          originalSelector) := by
  intro st originalSelector orig ctx elems h
  refine ⟨?_, ?_, ?_, ?_⟩
  · unfold findElementUniversal
    dsimp only
    rw [jsSlice0_idem st.config.maxElementsToAnalyze h elems]
  · unfold findElementSimple
    dsimp only
    rw [jsSlice0_idem st.config.maxElementsToAnalyze h elems]
  · unfold findElementComplex
    dsimp only
    rw [jsSlice0_idem st.config.maxElementsToAnalyze h elems]
  · unfold findElementAdvanced
    dsimp only
    rw [jsSlice0_idem st.config.maxElementsToAnalyze h elems]

/-- Witness for C8 with the default budget (50) on a one-element page. -/
theorem claim_C8_scan_window_witness :
    0 ≤ defaultState.config.maxElementsToAnalyze ∧
    findElementSimple defaultState ⟨false, Except.ok [divContainer], Except.ok []⟩ (str "#zzz") =
      findElementSimple defaultState
        ⟨false,
          Except.ok (jsSlice0 defaultState.config.maxElementsToAnalyze [divContainer]),
          Except.ok []⟩
        (str "#zzz") :=
  ⟨by decide,
   (claim_C8_scan_window defaultState (str "#zzz") false (Except.ok []) [divContainer]
      (by decide)).2.1⟩

/-- A two-element snapshot list survives any analysis budget of at least
two. -/
theorem jsSlice0_pair (n : ℤ) (h : 2 ≤ n) (a b : SerializedElement) :
    jsSlice0 n [a, b] = [a, b] := by
  have h0 : 0 ≤ n := by linarith
  have h2 : 2 ≤ n.toNat := (Int.le_toNat h0).mpr (by exact_mod_cast h)
  unfold jsSlice0
  rw [if_pos h0]
  apply List.take_of_length_le
  simpa using h2

/-- Distinct identifiers give distinct similarity-cache keys. -/
theorem similarityCacheKey_ne (sel idA idB : Str) (h : idA ≠ idB) :
    similarityCacheKey sel idA ≠ similarityCacheKey sel idB := by
  intro hcontra
  apply h
  unfold similarityCacheKey at hcontra
  exact List.append_cancel_left hcontra

/-- Claim C5: on a page whose candidate list holds element `A` first in
document order with score `0.15` and element `B` second with score `0.9`
(each score taken under the scoring function of the respective strategy),
with threshold `0.1` and a budget admitting both: the Simple strategy
returns the selector synthesized from `A` (first element meeting the
threshold) while the Universal and Complex strategies return the selector
synthesized from `B` (the best-scoring element). -/
theorem claim_C5_policy_divergence :
    (∀ (st : HealState) (ctx : Except Str (List SerializedElement)) (sel : Str)
        (A B : SerializedElement),
      isValidSelector sel = true →
      st.config.minSimilarityThreshold = 1/10 →
      2 ≤ st.config.maxElementsToAnalyze →
      calculateLevenshteinSimilarity sel (getElementIdentifier A) = 3/20 →
      calculateLevenshteinSimilarity sel (getElementIdentifier B) = 9/10 →
      findElementSimple st ⟨false, Except.ok [A, B], ctx⟩ sel =
        Except.ok (some (generateOptimalSelector A))) ∧
    (∀ (st : HealState) (ctx : Except Str (List SerializedElement)) (sel : Str)
        (A B : SerializedElement),
      isValidSelector sel = true →
      st.config.minSimilarityThreshold = 1/10 →
      2 ≤ st.config.maxElementsToAnalyze →
      st.similarityCache = [] →
      getElementIdentifier A ≠ getElementIdentifier B →
      comprehensiveRaw st.config sel A = 3/20 →
      comprehensiveRaw st.config sel B = 9/10 →
      (findElementUniversal st ⟨false, Except.ok [A, B], ctx⟩ sel).1 =
        Except.ok (some (generateOptimalSelector B))) ∧
    (∀ (st : HealState) (ctx : Except Str (List SerializedElement)) (sel : Str)
        (A B : SerializedElement),
      isValidSelector sel = true →
      st.config.minSimilarityThreshold = 1/10 →
      2 ≤ st.config.maxElementsToAnalyze →
      calculateSemanticSimilarity sel A * 0.6 + calculateStructuralSimilarity sel A * 0.4 =
        3/20 →
      calculateSemanticSimilarity sel B * 0.6 + calculateStructuralSimilarity sel B * 0.4 =
        9/10 →
      findElementComplex st ⟨false, Except.ok [A, B], ctx⟩ sel =
        Except.ok (some (generateOptimalSelector B))) := by
  refine ⟨?_, ?_, ?_⟩
  · intro st ctx sel A B hv hthr hmax hA hB
    unfold findElementSimple
    rw [hv]
    simp only [Bool.true_eq_false, if_false]
    simp only [Bool.false_eq_true, if_false]
    rw [jsSlice0_pair st.config.maxElementsToAnalyze hmax A B]
    have hpA : decide (st.config.minSimilarityThreshold ≤
        calculateLevenshteinSimilarity sel (getElementIdentifier A)) = true := by
      rw [decide_eq_true_eq, hthr, hA]
      norm_num
    simp only [List.find?, hpA]
  · intro st ctx sel A B hv hthr hmax hcache hids hA hB
    have hcompA : calculateComprehensiveSimilarity st.config [] sel A =
        (3/20, [(similarityCacheKey sel (getElementIdentifier A), 3/20)]) := by
      unfold calculateComprehensiveSimilarity
      dsimp only
      rw [List.lookup_nil, hA]
      norm_num [jsMax, jsMin]
    have hbeq : (similarityCacheKey sel (getElementIdentifier B) ==
        similarityCacheKey sel (getElementIdentifier A)) = false := by
      refine beq_eq_false_iff_ne.mpr ?_
      exact fun hc =>
        similarityCacheKey_ne sel (getElementIdentifier A) (getElementIdentifier B) hids hc.symm
    have hcompB : calculateComprehensiveSimilarity st.config
        [(similarityCacheKey sel (getElementIdentifier A), 3/20)] sel B =
        (9/10, [(similarityCacheKey sel (getElementIdentifier B), 9/10),
          (similarityCacheKey sel (getElementIdentifier A), 3/20)]) := by
      unfold calculateComprehensiveSimilarity
      dsimp only
      rw [List.lookup_cons, hbeq]
      dsimp only
      rw [List.lookup_nil, hB]
      norm_num [jsMax, jsMin]
    have hstep1 : universalStep st.config sel ⟨none, 0, []⟩ A =
        ⟨some A, 3/20, [(similarityCacheKey sel (getElementIdentifier A), 3/20)]⟩ := by
      unfold universalStep
      rw [hcompA]
      dsimp only
      rw [hthr, if_pos (by norm_num : (0:ℚ) < 3/20 ∧ (1:ℚ)/10 ≤ 3/20)]
    have hstep2 : universalStep st.config sel
        ⟨some A, 3/20, [(similarityCacheKey sel (getElementIdentifier A), 3/20)]⟩ B =
        ⟨some B, 9/10, [(similarityCacheKey sel (getElementIdentifier B), 9/10),
          (similarityCacheKey sel (getElementIdentifier A), 3/20)]⟩ := by
      unfold universalStep
      rw [hcompB]
      dsimp only
      rw [hthr, if_pos (by norm_num : (3:ℚ)/20 < 9/10 ∧ (1:ℚ)/10 ≤ 9/10)]
    unfold findElementUniversal
    rw [hv]
    simp only [Bool.true_eq_false, if_false]
    simp only [Bool.false_eq_true, if_false]
    rw [jsSlice0_pair st.config.maxElementsToAnalyze hmax A B, hcache]
    simp only [List.foldl_cons, List.foldl_nil, hstep1, hstep2]
  · intro st ctx sel A B hv hthr hmax hA hB
    unfold findElementComplex
    rw [hv]
    simp only [Bool.true_eq_false, if_false]
    simp only [Bool.false_eq_true, if_false]
    rw [jsSlice0_pair st.config.maxElementsToAnalyze hmax A B]
    simp only [List.foldl_cons, List.foldl_nil]
    rw [hthr, hA, hB]
    rw [if_pos (by norm_num : (1:ℚ)/10 ≤ 3/20), if_pos (by norm_num : (1:ℚ)/10 ≤ 9/10)]
    simp only [List.nil_append, List.singleton_append]
    unfold sortByScoreDesc
    simp only [List.foldl_cons, List.foldl_nil, insertDesc]
    rw [if_pos (by norm_num : (3:ℚ)/20 < 9/10)]

/-- The failing selector of the Simple/Universal fixture of C5. -/
def selSU : Str := str "xyz"

/-- Fixture element A for Simple/Universal: lexical similarity against the
identifier (its bare tag) is `1 - 17/20 = 0.15`, with no substring bonus. -/
def elA_SU : SerializedElement := { emptyElement with tagName := str "xaybzaaaaaaaaaaaaaaa" }

/-- Fixture element B for Simple/Universal: lexical similarity
`1 - 27/30 + 0.8 = 0.9` (prefix bonus fires). -/
def elB_SU : SerializedElement :=
  { emptyElement with tagName := str "xyzqqqqqqqqqqqqqqqqqqqqqqqqqqq" }

/-- An instance whose composite weights make the comprehensive score equal
the lexical score (weights 1, 0, 0 — valid, since weights are not range
checked). -/
def stU : HealState :=
  ⟨{ DEFAULT_CONFIG with levenshteinWeight := 1, semanticWeight := 0, structuralWeight := 0 },
   []⟩

/-- The failing selector of the Complex fixture of C5: twelve tokens, ten of
which match element B and three of which match element A. -/
def selCX : Str := str "zb yb wb id class cl ss a a a qq pp"

/-- Fixture element A for Complex: semantic `3/12`, structural `0`, so
`0.25 * 0.6 = 0.15`. -/
def elA_CX : SerializedElement := { emptyElement with tagName := str "ka" }

/-- Fixture element B for Complex: semantic `10/12`, structural `1`, so
`(5/6) * 0.6 + 0.4 = 0.9`. -/
def elB_CX : SerializedElement :=
  { emptyElement with tagName := str "zb", id := str "yb", className := str "wb" }

set_option maxRecDepth 400000 in
unseal Rat.add Rat.mul Rat.sub Rat.inv Rat.ofScientific Nat.gcd in
/-- Witness for C5: concrete two-element fixtures realizing the scores 0.15
and 0.9 under each scoring function; the Simple strategy heals to element A,
the Universal and Complex strategies heal to element B. -/
theorem claim_C5_policy_divergence_witness :
    (calculateLevenshteinSimilarity selSU (getElementIdentifier elA_SU) = 3/20 ∧
      calculateLevenshteinSimilarity selSU (getElementIdentifier elB_SU) = 9/10 ∧
      findElementSimple defaultState ⟨false, Except.ok [elA_SU, elB_SU], Except.ok []⟩ selSU =
        Except.ok (some (generateOptimalSelector elA_SU))) ∧
    (comprehensiveRaw stU.config selSU elA_SU = 3/20 ∧
      comprehensiveRaw stU.config selSU elB_SU = 9/10 ∧
      (findElementUniversal stU ⟨false, Except.ok [elA_SU, elB_SU], Except.ok []⟩ selSU).1 =
        Except.ok (some (generateOptimalSelector elB_SU))) ∧
    (calculateSemanticSimilarity selCX elA_CX * 0.6 +
        calculateStructuralSimilarity selCX elA_CX * 0.4 = 3/20 ∧
      calculateSemanticSimilarity selCX elB_CX * 0.6 +
        calculateStructuralSimilarity selCX elB_CX * 0.4 = 9/10 ∧
      findElementComplex defaultState ⟨false, Except.ok [elA_CX, elB_CX], Except.ok []⟩ selCX =
        Except.ok (some (generateOptimalSelector elB_CX))) :=
  ⟨⟨by decide, by decide,
    claim_C5_policy_divergence.1 defaultState (Except.ok []) selSU elA_SU elB_SU
      (by decide) (by decide) (by decide) (by decide) (by decide)⟩,
   ⟨by decide, by decide,
    claim_C5_policy_divergence.2.1 stU (Except.ok []) selSU elA_SU elB_SU
      (by decide) (by decide) (by decide) (by decide) (by decide) (by decide) (by decide)⟩,
   ⟨by decide, by decide,
    claim_C5_policy_divergence.2.2 defaultState (Except.ok []) selCX elA_CX elB_CX
      (by decide) (by decide) (by decide) (by decide) (by decide)⟩⟩
